import Mathlib

/-!  Shallow embedding of the supermarket-sales ETL transform stage
(`src/etl/transform.py`): the cleaning step, the dimension builders, the fact
builder and the orchestrating `transform_data`, together with proofs relating
them to the specification.  Pandas frames are modelled as Lean lists of
records, float cells as rationals, and missing values (`NaN`/`NaT`) as `none`;
the column-wise pandas operations of `_clean_data` are modelled row-wise,
which yields the same surviving rows in the same order. -/

/-- Calendar date in the proleptic Gregorian calendar, the value produced by
pandas `to_datetime` for the `Date` column. -/
structure Date where
  year : Nat
  month : Nat
  day : Nat
deriving DecidableEq, Repr

/-- Time of day, the value produced by `to_datetime(..., format="%I:%M:%S %p").dt.time`
for the `Time` column. -/
structure Time where
  hour : Nat
  minute : Nat
  second : Nat
deriving DecidableEq, Repr

/-- A non-null pandas cell that the pipeline never parses or coerces: either a
string or a number.  Used for the columns (`Invoice ID` aside, which is modelled
as a plain string) that `_clean_data` leaves untouched. -/
inductive Cell where
  | str (s : String)
  | num (q : Rat)
deriving DecidableEq, Repr

/-- A raw column entry fed to a parsing or coercion step: missing (`NaN`), a
value that fails to parse as an `α`, or a value that parses to an `α`. -/
inductive RawField (α : Type) where
  | missing
  | unparseable
  | valid (a : α)
deriving DecidableEq, Repr

/-- Whether this raw entry makes `to_datetime(..., errors="raise")` raise. -/
def RawField.isUnparseable {α : Type} : RawField α → Bool
  | .unparseable => true
  | _ => false

/-- The cell after a parse with `errors` not raising on this cell: a parsed
value, or null (`NaT`) for a missing input. -/
def RawField.parsed {α : Type} : RawField α → Option α
  | .valid a => some a
  | _ => none

/-- pandas `to_numeric(..., errors="coerce")` on one cell: missing and
non-numeric entries both become null. -/
def to_numeric (x : RawField Rat) : Option Rat :=
  x.parsed

/-- pandas `.str.strip()` on one string cell: drop leading and trailing
whitespace. -/
def strip (s : String) : String :=
  ⟨((s.data.dropWhile Char.isWhitespace).reverse.dropWhile Char.isWhitespace).reverse⟩

/-- One raw sale transaction, the row shape handed to `transform_data` by the
extractor (columns `Invoice ID`, `Branch`, ..., `Date`, `Time`). -/
structure RawRecord where
  invoice_id : Option String
  branch : Option String
  city : Option String
  customer_type : Option String
  gender : Option String
  product_line : Option String
  unit_price : RawField Rat
  quantity : RawField Rat
  tax_5_percent : RawField Rat
  sales : RawField Rat
  cogs : RawField Rat
  gross_margin_percentage : Option Cell
  gross_income : RawField Rat
  rating : RawField Rat
  payment : Option String
  date : RawField Date
  time : RawField Time
deriving DecidableEq, Repr

/-- A row surviving `_clean_data`: date and time parsed, the six string columns
stripped, the seven numeric columns coerced, no null anywhere. -/
structure CleanedRecord where
  invoice_id : String
  branch : String
  city : String
  customer_type : String
  gender : String
  product_line : String
  unit_price : Rat
  quantity : Rat
  tax_5_percent : Rat
  sales : Rat
  cogs : Rat
  gross_margin_percentage : Cell
  gross_income : Rat
  rating : Rat
  payment : String
  date : Date
  time : Time
deriving DecidableEq, Repr

/-- Pipeline-level errors of the transform stage. -/
inductive EtlError where
  | parseError (column : String)
deriving DecidableEq, Repr

/-- Row-wise view of `DataTransformer._clean_data` once the whole-column date
and time conversions have not raised: parsed date and time (null for `NaT`),
stripped strings, coerced numerics, and `dropna` keeps the row only when no
field is null. -/
def cleanRow (r : RawRecord) : Option CleanedRecord := do
  let date ← r.date.parsed
  let time ← r.time.parsed
  let invoice_id ← r.invoice_id
  let branch ← r.branch.map strip
  let city ← r.city.map strip
  let customer_type ← r.customer_type.map strip
  let gender ← r.gender.map strip
  let product_line ← r.product_line.map strip
  let payment ← r.payment.map strip
  let unit_price ← to_numeric r.unit_price
  let quantity ← to_numeric r.quantity
  let tax_5_percent ← to_numeric r.tax_5_percent
  let sales ← to_numeric r.sales
  let cogs ← to_numeric r.cogs
  let gross_income ← to_numeric r.gross_income
  let rating ← to_numeric r.rating
  let gross_margin_percentage ← r.gross_margin_percentage
  pure { invoice_id, branch, city, customer_type, gender, product_line,
         unit_price, quantity, tax_5_percent, sales, cogs,
         gross_margin_percentage, gross_income, rating, payment, date, time }

/-- `DataTransformer._clean_data`: `pd.to_datetime(df["Date"])` raises on any
unparseable date (default `errors="raise"`), then the time conversion likewise;
otherwise the rows are stripped, coerced and filtered by `dropna`. -/
def clean_data (df : List RawRecord) : Except EtlError (List CleanedRecord) :=
  if df.any (fun r => r.date.isUnparseable) then
    .error (.parseError "Date")
  else if df.any (fun r => r.time.isUnparseable) then
    .error (.parseError "Time")
  else
    .ok (df.filterMap cleanRow)

/-- Tail-recursive worker for `drop_duplicates`: `seen` holds the values already
emitted. -/
def dedupFirstAux {α : Type} [DecidableEq α] (seen : List α) : List α → List α
  | [] => []
  | a :: as =>
    if a ∈ seen then dedupFirstAux seen as
    else a :: dedupFirstAux (a :: seen) as

/-- pandas `drop_duplicates()`: keep the first occurrence of each value,
preserving the original order. -/
def drop_duplicates {α : Type} [DecidableEq α] (l : List α) : List α :=
  dedupFirstAux [] l

/-- Row of `dim_customer`. -/
structure CustomerRow where
  customer_id : Nat
  customer_type : String
  gender : String
deriving DecidableEq, Repr

/-- Row of `dim_product`. -/
structure ProductRow where
  product_id : Nat
  product_line : String
  unit_price : Rat
deriving DecidableEq, Repr

/-- Row of `dim_time`, with the attributes derived from the date. -/
structure TimeRow where
  time_id : Nat
  date : Date
  time : Time
  year : Nat
  month : Nat
  day : Nat
  quarter : Nat
  weekday : Nat
  is_weekend : Bool
deriving DecidableEq, Repr

/-- Row of `dim_branch`. -/
structure BranchRow where
  branch_id : Nat
  branch : String
  city : String
deriving DecidableEq, Repr

/-- Row of `dim_payment`. -/
structure PaymentRow where
  payment_id : Nat
  payment_method : String
deriving DecidableEq, Repr

/-- Whether `y` is a leap year of the proleptic Gregorian calendar. -/
def isLeap (y : Nat) : Bool :=
  y % 4 == 0 && (y % 100 != 0 || y % 400 == 0)

/-- Number of days of year `y` strictly before month `m` (months `1..12`). -/
def daysBeforeMonth (y m : Nat) : Nat :=
  [0, 0, 31, 59, 90, 120, 151, 181, 212, 243, 273, 304, 334].getD m 0
    + (if 2 < m && isLeap y then 1 else 0)

/-- Python `datetime.date.toordinal`: day count with January 1 of year 1 as
ordinal 1. -/
def toordinal (d : Date) : Nat :=
  365 * (d.year - 1) + (d.year - 1) / 4 + (d.year - 1) / 400 - (d.year - 1) / 100
    + daysBeforeMonth d.year d.month + d.day

/-- Python `datetime.date.weekday()`: Monday is 0, Sunday is 6; ordinal 1
(January 1 of year 1) is a Monday. -/
def pythonWeekday (d : Date) : Nat :=
  (toordinal d + 6) % 7

/-- One appended entry of the `time_data` loop in `_create_dimensions`, together
with the `time_id` inserted afterwards. -/
def mkTimeRow (p : Nat × Date × Time) : TimeRow :=
  { time_id := p.1 + 1
    date := p.2.1
    time := p.2.2
    year := p.2.1.year
    month := p.2.1.month
    day := p.2.1.day
    quarter := (p.2.1.month - 1) / 3 + 1
    weekday := pythonWeekday p.2.1
    is_weekend := decide (pythonWeekday p.2.1 ≥ 5) }

/-- Customer dimension row built from position `p.1` (0-based) and natural key
`p.2` of the deduplicated key sequence. -/
def mkCustomerRow (p : Nat × String × String) : CustomerRow :=
  { customer_id := p.1 + 1, customer_type := p.2.1, gender := p.2.2 }

/-- Product dimension row built from a position and a natural key. -/
def mkProductRow (p : Nat × String × Rat) : ProductRow :=
  { product_id := p.1 + 1, product_line := p.2.1, unit_price := p.2.2 }

/-- Branch dimension row built from a position and a natural key. -/
def mkBranchRow (p : Nat × String × String) : BranchRow :=
  { branch_id := p.1 + 1, branch := p.2.1, city := p.2.2 }

/-- Payment dimension row built from a position and a natural key. -/
def mkPaymentRow (p : Nat × String) : PaymentRow :=
  { payment_id := p.1 + 1, payment_method := p.2 }

/-- The five dimension tables, i.e. `self.dimension_tables` after
`_create_dimensions`. -/
structure Dimensions where
  customer : List CustomerRow
  product : List ProductRow
  time : List TimeRow
  branch : List BranchRow
  payment : List PaymentRow
deriving DecidableEq, Repr

/-- `DataTransformer._create_dimensions`: for each dimension, project the
natural key, `drop_duplicates` (first occurrence, original order), and insert
ids `1..N` positionally. -/
def create_dimensions (df : List CleanedRecord) : Dimensions :=
  { customer :=
      ((drop_duplicates (df.map fun r => (r.customer_type, r.gender))).enum).map
        mkCustomerRow
    product :=
      ((drop_duplicates (df.map fun r => (r.product_line, r.unit_price))).enum).map
        mkProductRow
    time :=
      ((drop_duplicates (df.map fun r => (r.date, r.time))).enum).map mkTimeRow
    branch :=
      ((drop_duplicates (df.map fun r => (r.branch, r.city))).enum).map mkBranchRow
    payment :=
      ((drop_duplicates (df.map fun r => r.payment)).enum).map mkPaymentRow }

/-- Python `dict(zip(keys, ids)).get(k)`: the id bound to `k`, where a later
binding of the same key wins, and `none` when `k` is absent. -/
def dictGet {κ : Type} [DecidableEq κ] (pairs : List (κ × Nat)) (k : κ) : Option Nat :=
  (pairs.reverse.find? (fun p => decide (p.1 = k))).map (fun p => p.2)

/-- The `customer_lookup` association built in `_create_fact_table`. -/
def customerPairs (tbl : List CustomerRow) : List ((String × String) × Nat) :=
  tbl.map fun c => ((c.customer_type, c.gender), c.customer_id)

/-- The `product_lookup` association built in `_create_fact_table`. -/
def productPairs (tbl : List ProductRow) : List ((String × Rat) × Nat) :=
  tbl.map fun c => ((c.product_line, c.unit_price), c.product_id)

/-- The `time_lookup` association built in `_create_fact_table`. -/
def timePairs (tbl : List TimeRow) : List ((Date × Time) × Nat) :=
  tbl.map fun c => ((c.date, c.time), c.time_id)

/-- The `branch_lookup` association built in `_create_fact_table`. -/
def branchPairs (tbl : List BranchRow) : List ((String × String) × Nat) :=
  tbl.map fun c => ((c.branch, c.city), c.branch_id)

/-- The `payment_lookup` association built in `_create_fact_table`. -/
def paymentPairs (tbl : List PaymentRow) : List (String × Nat) :=
  tbl.map fun c => (c.payment_method, c.payment_id)

/-- Row of `fact_sales`; the five foreign keys are `Option` because a lookup
miss is nulled, never raised. -/
structure FactRow where
  invoice_id : String
  customer_id : Option Nat
  product_id : Option Nat
  time_id : Option Nat
  branch_id : Option Nat
  payment_id : Option Nat
  quantity : Rat
  tax_5_percent : Rat
  sales : Rat
  cogs : Rat
  gross_margin_percentage : Cell
  gross_income : Rat
  rating : Rat
deriving DecidableEq, Repr

/-- The fact row appended for one cleaned record by the loop of
`_create_fact_table`: foreign keys via `.get` on the lookup dicts, measures
copied from the record. -/
def mkFactRow (dims : Dimensions) (r : CleanedRecord) : FactRow :=
  { invoice_id := r.invoice_id
    customer_id := dictGet (customerPairs dims.customer) (r.customer_type, r.gender)
    product_id := dictGet (productPairs dims.product) (r.product_line, r.unit_price)
    time_id := dictGet (timePairs dims.time) (r.date, r.time)
    branch_id := dictGet (branchPairs dims.branch) (r.branch, r.city)
    payment_id := dictGet (paymentPairs dims.payment) r.payment
    quantity := r.quantity
    tax_5_percent := r.tax_5_percent
    sales := r.sales
    cogs := r.cogs
    gross_margin_percentage := r.gross_margin_percentage
    gross_income := r.gross_income
    rating := r.rating }

/-- `DataTransformer._create_fact_table` without its trailing save call: one
fact row per cleaned record, in row order. -/
def create_fact_table (dims : Dimensions) (df : List CleanedRecord) : List FactRow :=
  df.map (mkFactRow dims)

/-- One CSV file written by `_save_processed_data`, with its content. -/
inductive FileWrite where
  | customerCsv (rows : List CustomerRow)
  | productCsv (rows : List ProductRow)
  | timeCsv (rows : List TimeRow)
  | branchCsv (rows : List BranchRow)
  | paymentCsv (rows : List PaymentRow)
  | factCsv (rows : List FactRow)
deriving DecidableEq, Repr

/-- `DataTransformer._save_processed_data`: write each dimension table (in the
insertion order of `self.dimension_tables`) and then the fact table to CSV
files under `data/processed`. -/
def save_processed_data (dims : Dimensions) (fact_data : List FactRow) : List FileWrite :=
  [.customerCsv dims.customer, .productCsv dims.product, .timeCsv dims.time,
   .branchCsv dims.branch, .paymentCsv dims.payment, .factCsv fact_data]

/-- The mutable state of a `DataTransformer` instance:
`self.dimension_tables` (empty dict on `__init__`, modelled as `none`) and
`self.fact_data` (`None` on `__init__`). -/
structure TransformerState where
  dimension_tables : Option Dimensions
  fact_data : Option (List FactRow)
deriving DecidableEq, Repr

/-- The named table set returned by `transform_data`. -/
structure TransformOutput where
  dim_customer : List CustomerRow
  dim_product : List ProductRow
  dim_time : List TimeRow
  dim_branch : List BranchRow
  dim_payment : List PaymentRow
  fact_sales : List FactRow
deriving DecidableEq, Repr

/-- The method `DataTransformer.transform_data`, made explicit about its
effects: it takes the instance state, and returns the table set together with
the final instance state and the list of file writes performed by
`_save_processed_data`.  A cleaning error propagates (the method re-raises). -/
def DataTransformer.transform_data (_s : TransformerState) (df : List RawRecord) :
    Except EtlError (TransformOutput × TransformerState × List FileWrite) :=
  match clean_data df with
  | .error e => .error e
  | .ok cleaned_df =>
    let dims := create_dimensions cleaned_df
    let facts := create_fact_table dims cleaned_df
    let writes := save_processed_data dims facts
    .ok (⟨dims.customer, dims.product, dims.time, dims.branch, dims.payment, facts⟩,
         ⟨some dims, some facts⟩, writes)

/-- The module-level `transform_data`: a fresh `DataTransformer()` is
constructed, so the method runs from the initial instance state. -/
def transform_data (df : List RawRecord) :
    Except EtlError (TransformOutput × TransformerState × List FileWrite) :=
  DataTransformer.transform_data ⟨none, none⟩ df

/-- The table set of a transform result, `none` when the transform failed. -/
def outputOf (r : Except EtlError (TransformOutput × TransformerState × List FileWrite)) :
    Option TransformOutput :=
  match r with
  | .ok x => some x.1
  | .error _ => none

/-- The file writes performed by a transform invocation (none when it failed,
since `_save_processed_data` is only reached on success). -/
def writesOf (r : Except EtlError (TransformOutput × TransformerState × List FileWrite)) :
    List FileWrite :=
  match r with
  | .ok x => x.2.2
  | .error _ => []

/-- Spec-side predicate: every field except `gross margin percentage` is
non-null after parsing and numeric coercion. -/
def otherFieldsNonNull (r : RawRecord) : Bool :=
  r.date.parsed.isSome && r.time.parsed.isSome && r.invoice_id.isSome &&
  r.branch.isSome && r.city.isSome && r.customer_type.isSome &&
  r.gender.isSome && r.product_line.isSome && r.payment.isSome &&
  (to_numeric r.unit_price).isSome && (to_numeric r.quantity).isSome &&
  (to_numeric r.tax_5_percent).isSome && (to_numeric r.sales).isSome &&
  (to_numeric r.cogs).isSome && (to_numeric r.gross_income).isSome &&
  (to_numeric r.rating).isSome

/-- Spec-side predicate: no field of the row is null after parsing and numeric
coercion (the complement of the `dropna` drop condition). -/
def noNullAfterCoercion (r : RawRecord) : Bool :=
  otherFieldsNonNull r && r.gross_margin_percentage.isSome


/-- Specification-side characterisation of a dimension table built over the
natural-key sequence `keys`: its ids are exactly `1..N`, its key column is
duplicate-free, holds exactly the distinct values of `keys`, is ordered by
first occurrence in `keys`, and `N` is the number of distinct natural keys. -/
def DenseFirstOccurrence {κ : Type} [DecidableEq κ]
    (keys : List κ) (ids : List Nat) (tblKeys : List κ) : Prop :=
  ids = List.range' 1 tblKeys.length ∧
  tblKeys.Nodup ∧
  (∀ k, k ∈ tblKeys ↔ k ∈ keys) ∧
  tblKeys.Pairwise (fun a b => keys.indexOf a < keys.indexOf b) ∧
  tblKeys.length = keys.toFinset.card

/-- The natural key stored in the customer dimension row carrying id `i`. -/
def customerKeyOfId (tbl : List CustomerRow) (i : Nat) : Option (String × String) :=
  (tbl.find? fun c => decide (c.customer_id = i)).map fun c => (c.customer_type, c.gender)

/-- The natural key stored in the product dimension row carrying id `i`. -/
def productKeyOfId (tbl : List ProductRow) (i : Nat) : Option (String × Rat) :=
  (tbl.find? fun c => decide (c.product_id = i)).map fun c => (c.product_line, c.unit_price)

/-- The natural key stored in the time dimension row carrying id `i`. -/
def timeKeyOfId (tbl : List TimeRow) (i : Nat) : Option (Date × Time) :=
  (tbl.find? fun c => decide (c.time_id = i)).map fun c => (c.date, c.time)

/-- The natural key stored in the branch dimension row carrying id `i`. -/
def branchKeyOfId (tbl : List BranchRow) (i : Nat) : Option (String × String) :=
  (tbl.find? fun c => decide (c.branch_id = i)).map fun c => (c.branch, c.city)

/-- The natural key stored in the payment dimension row carrying id `i`. -/
def paymentKeyOfId (tbl : List PaymentRow) (i : Nat) : Option String :=
  (tbl.find? fun c => decide (c.payment_id = i)).map fun c => c.payment_method

/-- A fully populated raw record, used as concrete test input. -/
def sampleRaw : RawRecord :=
  { invoice_id := some "750-67-8428"
    branch := some "A"
    city := some "Yangon"
    customer_type := some "Member"
    gender := some "Female"
    product_line := some "Health and beauty"
    unit_price := .valid 74
    quantity := .valid 7
    tax_5_percent := .valid 26
    sales := .valid 549
    cogs := .valid 522
    gross_margin_percentage := some (.num 4)
    gross_income := .valid 26
    rating := .valid 9
    payment := some "Ewallet"
    date := .valid ⟨2019, 1, 5⟩
    time := .valid ⟨13, 8, 0⟩ }

/-- A second fully populated raw record with different natural keys. -/
def sampleRaw2 : RawRecord :=
  { sampleRaw with
    invoice_id := some "226-31-3081"
    branch := some "C"
    city := some "Naypyitaw"
    customer_type := some "Normal"
    gender := some "Male"
    product_line := some "Electronic accessories"
    unit_price := .valid 15
    payment := some "Cash"
    date := .valid ⟨2019, 3, 8⟩
    time := .valid ⟨10, 29, 0⟩ }

/-- A concrete cleaned record (the cleaning of `sampleRaw`). -/
def sampleClean : CleanedRecord :=
  { invoice_id := "750-67-8428"
    branch := "A"
    city := "Yangon"
    customer_type := "Member"
    gender := "Female"
    product_line := "Health and beauty"
    unit_price := 74
    quantity := 7
    tax_5_percent := 26
    sales := 549
    cogs := 522
    gross_margin_percentage := .num 4
    gross_income := 26
    rating := 9
    payment := "Ewallet"
    date := ⟨2019, 1, 5⟩
    time := ⟨13, 8, 0⟩ }

/-- Concrete input for the unparseable-date boundary: one fully valid record
and one whose date does not parse. -/
def badDateDf : List RawRecord :=
  [sampleRaw, { sampleRaw2 with date := .unparseable }]

/-- Concrete input with an unparseable time next to a fully valid record. -/
def badTimeDf : List RawRecord :=
  [sampleRaw, { sampleRaw2 with time := .unparseable }]

/-- Concrete one-record input used to exhibit the file writes of a transform. -/
def oneRowDf : List RawRecord :=
  [sampleRaw]

/-- Concrete two-record input used for whole-transform evaluations. -/
def twoRowDf : List RawRecord :=
  [sampleRaw, sampleRaw2]

/-- The cleaned rows of `twoRowDf`. -/
def twoRowCleaned : List CleanedRecord :=
  twoRowDf.filterMap cleanRow

/-- The dimensions built from `twoRowCleaned`. -/
def twoRowDims : Dimensions :=
  create_dimensions twoRowCleaned

/-- The fact rows built from `twoRowCleaned`. -/
def twoRowFacts : List FactRow :=
  create_fact_table twoRowDims twoRowCleaned

/-- The table set of the transform of `twoRowDf`. -/
def twoRowOut : TransformOutput :=
  ⟨twoRowDims.customer, twoRowDims.product, twoRowDims.time, twoRowDims.branch, twoRowDims.payment, twoRowFacts⟩

/-- The final instance state of the transform of `twoRowDf`. -/
def twoRowState : TransformerState :=
  ⟨some twoRowDims, some twoRowFacts⟩

/-- The file writes of the transform of `twoRowDf`. -/
def twoRowWrites : List FileWrite :=
  save_processed_data twoRowDims twoRowFacts

/-- Dimensions built from an empty cleaned dataset: all five tables empty. -/
def emptyDims : Dimensions :=
  create_dimensions []

/-- A raw record whose gross margin percentage is a non-numeric string. -/
def strGmpRaw : RawRecord :=
  { sampleRaw with gross_margin_percentage := some (.str "4.7619%") }

/-! ### Helper lemmas about the building blocks -/

theorem mem_dedupFirstAux {α : Type} [DecidableEq α] (l : List α) :
    ∀ (seen : List α) (b : α), b ∈ dedupFirstAux seen l ↔ b ∈ l ∧ b ∉ seen := by
  induction l with
  | nil => intro seen b; simp [dedupFirstAux]
  | cons a as ih =>
    intro seen b
    by_cases ha : a ∈ seen
    · rw [dedupFirstAux, if_pos ha, ih]
      constructor
      · rintro ⟨hb, hbs⟩
        exact ⟨List.mem_cons_of_mem a hb, hbs⟩
      · rintro ⟨hb, hbs⟩
        rcases List.mem_cons.1 hb with rfl | hb
        · exact absurd ha hbs
        · exact ⟨hb, hbs⟩
    · rw [dedupFirstAux, if_neg ha]
      constructor
      · intro hb
        rcases List.mem_cons.1 hb with rfl | hb
        · exact ⟨List.mem_cons_self _ _, ha⟩
        · rcases (ih (a :: seen) b).1 hb with ⟨hb₁, hb₂⟩
          refine ⟨List.mem_cons_of_mem a hb₁, fun hc => hb₂ (List.mem_cons_of_mem a hc)⟩
      · rintro ⟨hb, hbs⟩
        rcases List.mem_cons.1 hb with rfl | hb
        · exact List.mem_cons_self _ _
        · by_cases hba : b = a
          · subst hba; exact List.mem_cons_self _ _
          · exact List.mem_cons_of_mem a
              ((ih (a :: seen) b).2 ⟨hb, fun hc => by
                rcases List.mem_cons.1 hc with h | h
                · exact hba h
                · exact hbs h⟩)

theorem nodup_dedupFirstAux {α : Type} [DecidableEq α] (l : List α) :
    ∀ seen : List α, (dedupFirstAux seen l).Nodup := by
  induction l with
  | nil => intro seen; simp [dedupFirstAux]
  | cons a as ih =>
    intro seen
    by_cases ha : a ∈ seen
    · rw [dedupFirstAux, if_pos ha]; exact ih seen
    · rw [dedupFirstAux, if_neg ha]
      refine List.nodup_cons.2 ⟨fun hc => ?_, ih (a :: seen)⟩
      exact ((mem_dedupFirstAux as (a :: seen) a).1 hc).2 (List.mem_cons_self _ _)

theorem pairwise_indexOf_dedupFirstAux {α : Type} [DecidableEq α] (l : List α) :
    ∀ seen : List α,
      (dedupFirstAux seen l).Pairwise (fun x y => l.indexOf x < l.indexOf y) := by
  induction l with
  | nil => intro seen; simp [dedupFirstAux]
  | cons a as ih =>
    intro seen
    by_cases ha : a ∈ seen
    · rw [dedupFirstAux, if_pos ha]
      refine (ih seen).imp_of_mem ?_
      intro x y hx hy hlt
      have hxa : x ≠ a := fun he => ((mem_dedupFirstAux as seen x).1 hx).2 (he ▸ ha)
      have hya : y ≠ a := fun he => ((mem_dedupFirstAux as seen y).1 hy).2 (he ▸ ha)
      rw [List.indexOf_cons_ne _ (fun he => hxa he.symm),
          List.indexOf_cons_ne _ (fun he => hya he.symm)]
      exact Nat.succ_lt_succ hlt
    · rw [dedupFirstAux, if_neg ha]
      refine List.pairwise_cons.2 ⟨?_, ?_⟩
      · intro y hy
        have hya : y ≠ a := fun he =>
          ((mem_dedupFirstAux as (a :: seen) y).1 hy).2 (he ▸ List.mem_cons_self a seen)
        rw [List.indexOf_cons_self, List.indexOf_cons_ne _ (fun he => hya he.symm)]
        exact Nat.succ_pos _
      · refine (ih (a :: seen)).imp_of_mem ?_
        intro x y hx hy hlt
        have hxa : x ≠ a := fun he =>
          ((mem_dedupFirstAux as (a :: seen) x).1 hx).2 (he ▸ List.mem_cons_self a seen)
        have hya : y ≠ a := fun he =>
          ((mem_dedupFirstAux as (a :: seen) y).1 hy).2 (he ▸ List.mem_cons_self a seen)
        rw [List.indexOf_cons_ne _ (fun he => hxa he.symm),
            List.indexOf_cons_ne _ (fun he => hya he.symm)]
        exact Nat.succ_lt_succ hlt

theorem mem_drop_duplicates {α : Type} [DecidableEq α] (l : List α) (b : α) :
    b ∈ drop_duplicates l ↔ b ∈ l := by
  unfold drop_duplicates
  rw [mem_dedupFirstAux]
  simp

theorem nodup_drop_duplicates {α : Type} [DecidableEq α] (l : List α) :
    (drop_duplicates l).Nodup :=
  nodup_dedupFirstAux l []

theorem pairwise_indexOf_drop_duplicates {α : Type} [DecidableEq α] (l : List α) :
    (drop_duplicates l).Pairwise (fun x y => l.indexOf x < l.indexOf y) :=
  pairwise_indexOf_dedupFirstAux l []

theorem toFinset_drop_duplicates {α : Type} [DecidableEq α] (l : List α) :
    (drop_duplicates l).toFinset = l.toFinset := by
  ext b
  simp [List.mem_toFinset, mem_drop_duplicates]

theorem length_drop_duplicates {α : Type} [DecidableEq α] (l : List α) :
    (drop_duplicates l).length = l.toFinset.card := by
  rw [← toFinset_drop_duplicates, List.toFinset_card_of_nodup (nodup_drop_duplicates l)]

theorem enum_map_ids {κ ρ : Type} (l : List κ) (f : Nat × κ → ρ) (idf : ρ → Nat)
    (h : ∀ p, idf (f p) = p.1 + 1) :
    ((l.enum.map f).map idf) = List.range' 1 l.length := by
  rw [List.map_map]
  rw [show (idf ∘ f) = fun p : Nat × κ => p.1 + 1 from funext h]
  rw [show (fun p : Nat × κ => p.1 + 1) = (fun n => n + 1) ∘ Prod.fst from rfl]
  rw [← List.map_map, List.enum_map_fst, List.range'_eq_map_range]
  exact List.map_congr_left fun a _ => Nat.add_comm a 1

theorem enum_map_keys {κ ρ : Type} (l : List κ) (f : Nat × κ → ρ) (keyf : ρ → κ)
    (h : ∀ p, keyf (f p) = p.2) :
    ((l.enum.map f).map keyf) = l := by
  rw [List.map_map, show (keyf ∘ f) = Prod.snd from funext h, List.enum_map_snd]

theorem dictGet_eq_none_iff {κ : Type} [DecidableEq κ] (pairs : List (κ × Nat)) (k : κ) :
    dictGet pairs k = none ↔ ∀ p ∈ pairs, p.1 ≠ k := by
  unfold dictGet
  rw [Option.map_eq_none', List.find?_eq_none]
  constructor
  · intro h p hp
    simpa using h p (List.mem_reverse.2 hp)
  · intro h p hp
    simpa using h p (List.mem_reverse.1 hp)

theorem dictGet_mem {κ : Type} [DecidableEq κ] {pairs : List (κ × Nat)} {k : κ} {i : Nat}
    (h : dictGet pairs k = some i) : (k, i) ∈ pairs := by
  unfold dictGet at h
  rw [Option.map_eq_some'] at h
  obtain ⟨p, hfind, hpi⟩ := h
  have hk : p.1 = k := by simpa using List.find?_some hfind
  have hmem : p ∈ pairs := List.mem_reverse.1 (List.mem_of_find?_eq_some hfind)
  have hp : p = (k, i) := by
    cases p
    simp_all
  exact hp ▸ hmem

theorem dictGet_isSome_of_mem {κ : Type} [DecidableEq κ] {pairs : List (κ × Nat)} {k : κ}
    (h : ∃ p ∈ pairs, p.1 = k) : (dictGet pairs k).isSome = true := by
  rcases hd : dictGet pairs k with _ | i
  · obtain ⟨p, hp, hk⟩ := h
    exact absurd hk ((dictGet_eq_none_iff pairs k).1 hd p hp)
  · rfl

theorem find?_of_unique {α : Type} {p : α → Bool} {l : List α} {a : α}
    (ha : a ∈ l) (hpa : p a = true) (huniq : ∀ b ∈ l, p b = true → b = a) :
    l.find? p = some a := by
  induction l with
  | nil => cases ha
  | cons x xs ih =>
    by_cases hx : p x = true
    · rw [List.find?_cons_of_pos _ hx]
      exact congrArg some (huniq x (List.mem_cons_self _ _) hx)
    · rw [List.find?_cons_of_neg _ hx]
      rcases List.mem_cons.1 ha with rfl | ha'
      · exact absurd hpa hx
      · exact ih ha' fun b hb hpb => huniq b (List.mem_cons_of_mem _ hb) hpb

theorem cleanRow_isSome_eq (r : RawRecord) :
    (cleanRow r).isSome = noNullAfterCoercion r := by
  obtain ⟨inv, br, ci, ct, g, pl, up, q, tax, sal, cg, gmp, gi, ra, pay, date, time⟩ := r
  cases date <;> try rfl
  cases time <;> try rfl
  cases inv <;> try rfl
  cases br <;> try rfl
  cases ci <;> try rfl
  cases ct <;> try rfl
  cases g <;> try rfl
  cases pl <;> try rfl
  cases pay <;> try rfl
  cases up <;> try rfl
  cases q <;> try rfl
  cases tax <;> try rfl
  cases sal <;> try rfl
  cases cg <;> try rfl
  cases gi <;> try rfl
  cases ra <;> try rfl
  cases gmp <;> rfl

theorem cleanRow_some_fields {r : RawRecord} {c : CleanedRecord} (h : cleanRow r = some c) :
    r.date.parsed = some c.date ∧ r.time.parsed = some c.time ∧
    r.invoice_id = some c.invoice_id ∧ r.branch.map strip = some c.branch ∧
    r.city.map strip = some c.city ∧ r.customer_type.map strip = some c.customer_type ∧
    r.gender.map strip = some c.gender ∧ r.product_line.map strip = some c.product_line ∧
    r.payment.map strip = some c.payment ∧ to_numeric r.unit_price = some c.unit_price ∧
    to_numeric r.quantity = some c.quantity ∧
    to_numeric r.tax_5_percent = some c.tax_5_percent ∧
    to_numeric r.sales = some c.sales ∧ to_numeric r.cogs = some c.cogs ∧
    to_numeric r.gross_income = some c.gross_income ∧
    to_numeric r.rating = some c.rating ∧
    r.gross_margin_percentage = some c.gross_margin_percentage := by
  obtain ⟨inv, br, ci, ct, g, pl, up, q, tax, sal, cg, gmp, gi, ra, pay, date, time⟩ := r
  cases date <;> try exact Option.noConfusion h
  cases time <;> try exact Option.noConfusion h
  cases inv <;> try exact Option.noConfusion h
  cases br <;> try exact Option.noConfusion h
  cases ci <;> try exact Option.noConfusion h
  cases ct <;> try exact Option.noConfusion h
  cases g <;> try exact Option.noConfusion h
  cases pl <;> try exact Option.noConfusion h
  cases pay <;> try exact Option.noConfusion h
  cases up <;> try exact Option.noConfusion h
  cases q <;> try exact Option.noConfusion h
  cases tax <;> try exact Option.noConfusion h
  cases sal <;> try exact Option.noConfusion h
  cases cg <;> try exact Option.noConfusion h
  cases gi <;> try exact Option.noConfusion h
  cases ra <;> try exact Option.noConfusion h
  cases gmp <;> try exact Option.noConfusion h
  have hc : c = _ := (Option.some.inj h).symm
  subst hc
  exact ⟨rfl, rfl, rfl, rfl, rfl, rfl, rfl, rfl, rfl, rfl, rfl, rfl, rfl, rfl,
         rfl, rfl, rfl⟩

theorem clean_data_ok_of_parses {df : List RawRecord}
    (h : ∀ r ∈ df, r.date.isUnparseable = false ∧ r.time.isUnparseable = false) :
    clean_data df = .ok (df.filterMap cleanRow) := by
  have hd : df.any (fun r => r.date.isUnparseable) = false := by
    rw [List.any_eq_false]
    intro r hr
    simp [(h r hr).1]
  have ht : df.any (fun r => r.time.isUnparseable) = false := by
    rw [List.any_eq_false]
    intro r hr
    simp [(h r hr).2]
  unfold clean_data
  rw [hd, ht]
  simp

theorem clean_data_error_date {df : List RawRecord} {r : RawRecord}
    (hr : r ∈ df) (hd : r.date.isUnparseable = true) :
    clean_data df = .error (.parseError "Date") := by
  unfold clean_data
  rw [if_pos]
  exact List.any_eq_true.2 ⟨r, hr, hd⟩

theorem transform_data_eq_ok {df : List RawRecord} {cleaned : List CleanedRecord}
    (h : clean_data df = .ok cleaned) :
    transform_data df = .ok
      (⟨(create_dimensions cleaned).customer, (create_dimensions cleaned).product,
        (create_dimensions cleaned).time, (create_dimensions cleaned).branch,
        (create_dimensions cleaned).payment,
        create_fact_table (create_dimensions cleaned) cleaned⟩,
       ⟨some (create_dimensions cleaned),
        some (create_fact_table (create_dimensions cleaned) cleaned)⟩,
       save_processed_data (create_dimensions cleaned)
         (create_fact_table (create_dimensions cleaned) cleaned)) := by
  unfold transform_data DataTransformer.transform_data
  rw [h]

theorem transform_data_eq_error {df : List RawRecord} {e : EtlError}
    (h : clean_data df = .error e) :
    transform_data df = .error e := by
  unfold transform_data DataTransformer.transform_data
  rw [h]

theorem build_denseFirstOccurrence {κ ρ : Type} [DecidableEq κ]
    (keys : List κ) (f : Nat × κ → ρ) (idf : ρ → Nat) (keyf : ρ → κ)
    (hid : ∀ p, idf (f p) = p.1 + 1) (hkey : ∀ p, keyf (f p) = p.2) :
    DenseFirstOccurrence keys (((drop_duplicates keys).enum.map f).map idf)
      (((drop_duplicates keys).enum.map f).map keyf) := by
  have hkeys : ((drop_duplicates keys).enum.map f).map keyf = drop_duplicates keys :=
    enum_map_keys _ f keyf hkey
  refine ⟨?_, ?_, ?_, ?_, ?_⟩
  · rw [enum_map_ids _ f idf hid, hkeys]
  · rw [hkeys]
    exact nodup_drop_duplicates keys
  · intro k
    rw [hkeys]
    exact mem_drop_duplicates keys k
  · rw [hkeys]
    exact pairwise_indexOf_drop_duplicates keys
  · rw [hkeys]
    exact length_drop_duplicates keys

theorem roundtrip_lookup {κ ρ : Type} [DecidableEq κ]
    (keys : List κ) (f : Nat × κ → ρ) (idf : ρ → Nat) (keyf : ρ → κ)
    (hid : ∀ p, idf (f p) = p.1 + 1) (hkey : ∀ p, keyf (f p) = p.2)
    (k : κ) (hk : k ∈ keys) :
    ∃ i, dictGet (((drop_duplicates keys).enum.map f).map (fun c => (keyf c, idf c))) k
        = some i ∧
      (((drop_duplicates keys).enum.map f).find? (fun c => decide (idf c = i))).map keyf
        = some k := by
  have hkmem : k ∈ drop_duplicates keys := (mem_drop_duplicates keys k).2 hk
  obtain ⟨j, hj, hjk⟩ := List.mem_iff_getElem.1 hkmem
  have hjen : j < (drop_duplicates keys).enum.length := by
    simpa [List.enum_length] using hj
  have henum : (drop_duplicates keys).enum[j] = (j, k) := by
    rw [List.getElem_enum, hjk]
  have hrow : f (j, k) ∈ (drop_duplicates keys).enum.map f :=
    List.mem_map.2 ⟨(j, k), henum ▸ List.getElem_mem hjen, rfl⟩
  have hpair : (k, j + 1)
      ∈ ((drop_duplicates keys).enum.map f).map (fun c => (keyf c, idf c)) := by
    refine List.mem_map.2 ⟨f (j, k), hrow, ?_⟩
    rw [hkey, hid]
  have hsome := dictGet_isSome_of_mem ⟨(k, j + 1), hpair, rfl⟩
  obtain ⟨i, hi⟩ := Option.isSome_iff_exists.1 hsome
  refine ⟨i, hi, ?_⟩
  obtain ⟨c, hc, hcki⟩ := List.mem_map.1 (dictGet_mem hi)
  have hck : keyf c = k := congrArg Prod.fst hcki
  have hcid : idf c = i := congrArg Prod.snd hcki
  have hnid : (((drop_duplicates keys).enum.map f).map idf).Nodup := by
    rw [enum_map_ids _ f idf hid]
    exact List.nodup_range' 1 _
  have hfind : ((drop_duplicates keys).enum.map f).find? (fun c' => decide (idf c' = i))
      = some c := by
    apply find?_of_unique hc (by simp [hcid])
    intro b hb hpb
    refine List.inj_on_of_nodup_map hnid hb hc ?_
    rw [hcid]
    simpa using hpb
  rw [hfind, Option.map_some', hck]

/-! ### The claims -/

/-- C2: for every cleaned input, each of the five dimension tables assigns
surrogate keys that are exactly `1..N` (no gaps, no duplicates) where `N` is
the number of distinct natural keys of the cleaned records, and the `i`-th key
is assigned to the `i`-th natural key in first-occurrence order over the
cleaned record sequence. -/
theorem dimension_surrogate_keys_dense_first_occurrence (rs : List CleanedRecord) :
    DenseFirstOccurrence (rs.map fun r => (r.customer_type, r.gender))
      ((create_dimensions rs).customer.map fun c => c.customer_id)
      ((create_dimensions rs).customer.map fun c => (c.customer_type, c.gender)) ∧
    DenseFirstOccurrence (rs.map fun r => (r.product_line, r.unit_price))
      ((create_dimensions rs).product.map fun c => c.product_id)
      ((create_dimensions rs).product.map fun c => (c.product_line, c.unit_price)) ∧
    DenseFirstOccurrence (rs.map fun r => (r.date, r.time))
      ((create_dimensions rs).time.map fun c => c.time_id)
      ((create_dimensions rs).time.map fun c => (c.date, c.time)) ∧
    DenseFirstOccurrence (rs.map fun r => (r.branch, r.city))
      ((create_dimensions rs).branch.map fun c => c.branch_id)
      ((create_dimensions rs).branch.map fun c => (c.branch, c.city)) ∧
    DenseFirstOccurrence (rs.map fun r => r.payment)
      ((create_dimensions rs).payment.map fun c => c.payment_id)
      ((create_dimensions rs).payment.map fun c => c.payment_method) :=
  ⟨build_denseFirstOccurrence _ mkCustomerRow _ _ (fun _ => rfl) (fun _ => rfl),
   build_denseFirstOccurrence _ mkProductRow _ _ (fun _ => rfl) (fun _ => rfl),
   build_denseFirstOccurrence _ mkTimeRow _ _ (fun _ => rfl) (fun _ => rfl),
   build_denseFirstOccurrence _ mkBranchRow _ _ (fun _ => rfl) (fun _ => rfl),
   build_denseFirstOccurrence _ mkPaymentRow _ _ (fun _ => rfl) (fun _ => rfl)⟩

/-- C3: for every cleaned input, the fact builder emits exactly one fact row
per cleaned record, in the same order as the cleaned-record sequence: the
fact_sales table is the elementwise image of the cleaned records, its length
equals the cleaned row count, and the `i`-th fact row comes from the `i`-th
cleaned record. -/
theorem fact_rows_one_per_cleaned_record (df : List RawRecord)
    (cleaned : List CleanedRecord) (h : clean_data df = .ok cleaned) :
    ∃ out, outputOf (transform_data df) = some out ∧
      out.fact_sales = cleaned.map (mkFactRow (create_dimensions cleaned)) ∧
      out.fact_sales.length = cleaned.length ∧
      ∀ i : Nat, out.fact_sales[i]?
        = (cleaned[i]?).map (mkFactRow (create_dimensions cleaned)) := by
  refine ⟨⟨(create_dimensions cleaned).customer, (create_dimensions cleaned).product,
          (create_dimensions cleaned).time, (create_dimensions cleaned).branch,
          (create_dimensions cleaned).payment,
          create_fact_table (create_dimensions cleaned) cleaned⟩, ?_, rfl, ?_, ?_⟩
  · rw [transform_data_eq_ok h]
    rfl
  · simp [create_fact_table]
  · intro i
    simp [create_fact_table]

/-- C3 witness: a concrete two-record raw input on which the transform
succeeds and the fact table is row-for-row the image of the cleaned rows. -/
theorem fact_rows_one_per_cleaned_record_witness :
    ∃ out, outputOf (transform_data twoRowDf) = some out ∧
      out.fact_sales = (twoRowDf.filterMap cleanRow).map
        (mkFactRow (create_dimensions (twoRowDf.filterMap cleanRow))) ∧
      out.fact_sales.length = (twoRowDf.filterMap cleanRow).length ∧
      ∀ i : Nat, out.fact_sales[i]?
        = ((twoRowDf.filterMap cleanRow)[i]?).map
            (mkFactRow (create_dimensions (twoRowDf.filterMap cleanRow))) :=
  fact_rows_one_per_cleaned_record twoRowDf (twoRowDf.filterMap cleanRow) rfl

/-- C4: for every fact row produced from a cleaned input, each of its five
dimension foreign keys is non-null and looking it up in the corresponding
dimension table built from the same cleaned input yields exactly the natural
key tuple of the originating cleaned record. -/
theorem fact_foreign_keys_roundtrip (rs : List CleanedRecord) (r : CleanedRecord)
    (h : r ∈ rs) :
    (∃ i, (mkFactRow (create_dimensions rs) r).customer_id = some i ∧
      customerKeyOfId (create_dimensions rs).customer i
        = some (r.customer_type, r.gender)) ∧
    (∃ i, (mkFactRow (create_dimensions rs) r).product_id = some i ∧
      productKeyOfId (create_dimensions rs).product i
        = some (r.product_line, r.unit_price)) ∧
    (∃ i, (mkFactRow (create_dimensions rs) r).time_id = some i ∧
      timeKeyOfId (create_dimensions rs).time i = some (r.date, r.time)) ∧
    (∃ i, (mkFactRow (create_dimensions rs) r).branch_id = some i ∧
      branchKeyOfId (create_dimensions rs).branch i = some (r.branch, r.city)) ∧
    (∃ i, (mkFactRow (create_dimensions rs) r).payment_id = some i ∧
      paymentKeyOfId (create_dimensions rs).payment i = some r.payment) := by
  refine ⟨?_, ?_, ?_, ?_, ?_⟩
  · exact roundtrip_lookup (rs.map fun x => (x.customer_type, x.gender)) mkCustomerRow
      (fun c => c.customer_id) (fun c => (c.customer_type, c.gender))
      (fun _ => rfl) (fun _ => rfl) (r.customer_type, r.gender)
      (List.mem_map.2 ⟨r, h, rfl⟩)
  · exact roundtrip_lookup (rs.map fun x => (x.product_line, x.unit_price)) mkProductRow
      (fun c => c.product_id) (fun c => (c.product_line, c.unit_price))
      (fun _ => rfl) (fun _ => rfl) (r.product_line, r.unit_price)
      (List.mem_map.2 ⟨r, h, rfl⟩)
  · exact roundtrip_lookup (rs.map fun x => (x.date, x.time)) mkTimeRow
      (fun c => c.time_id) (fun c => (c.date, c.time))
      (fun _ => rfl) (fun _ => rfl) (r.date, r.time)
      (List.mem_map.2 ⟨r, h, rfl⟩)
  · exact roundtrip_lookup (rs.map fun x => (x.branch, x.city)) mkBranchRow
      (fun c => c.branch_id) (fun c => (c.branch, c.city))
      (fun _ => rfl) (fun _ => rfl) (r.branch, r.city)
      (List.mem_map.2 ⟨r, h, rfl⟩)
  · exact roundtrip_lookup (rs.map fun x => x.payment) mkPaymentRow
      (fun c => c.payment_id) (fun c => c.payment_method)
      (fun _ => rfl) (fun _ => rfl) r.payment
      (List.mem_map.2 ⟨r, h, rfl⟩)

/-- C4 witness: the round trip at a concrete one-record cleaned input. -/
theorem fact_foreign_keys_roundtrip_witness :
    ∃ i, (mkFactRow (create_dimensions [sampleClean]) sampleClean).customer_id
        = some i ∧
      customerKeyOfId (create_dimensions [sampleClean]).customer i
        = some (sampleClean.customer_type, sampleClean.gender) :=
  (fact_foreign_keys_roundtrip [sampleClean] sampleClean (List.mem_cons_self _ _)).1

/-- C5: for every cleaned record and every dimension table set, a natural key
absent from a dimension makes the fact builder set that foreign key to null
(the lookup is total, never raising), while every other field of the fact row
is still populated from the record. -/
theorem fact_lookup_miss_yields_null (dims : Dimensions) (r : CleanedRecord) :
    ((∀ c ∈ dims.customer, (c.customer_type, c.gender) ≠ (r.customer_type, r.gender)) →
        (mkFactRow dims r).customer_id = none) ∧
    ((∀ c ∈ dims.product, (c.product_line, c.unit_price) ≠ (r.product_line, r.unit_price)) →
        (mkFactRow dims r).product_id = none) ∧
    ((∀ c ∈ dims.time, (c.date, c.time) ≠ (r.date, r.time)) →
        (mkFactRow dims r).time_id = none) ∧
    ((∀ c ∈ dims.branch, (c.branch, c.city) ≠ (r.branch, r.city)) →
        (mkFactRow dims r).branch_id = none) ∧
    ((∀ c ∈ dims.payment, c.payment_method ≠ r.payment) →
        (mkFactRow dims r).payment_id = none) ∧
    (mkFactRow dims r).invoice_id = r.invoice_id ∧
    (mkFactRow dims r).quantity = r.quantity ∧
    (mkFactRow dims r).tax_5_percent = r.tax_5_percent ∧
    (mkFactRow dims r).sales = r.sales ∧
    (mkFactRow dims r).cogs = r.cogs ∧
    (mkFactRow dims r).gross_margin_percentage = r.gross_margin_percentage ∧
    (mkFactRow dims r).gross_income = r.gross_income ∧
    (mkFactRow dims r).rating = r.rating := by
  refine ⟨?_, ?_, ?_, ?_, ?_, rfl, rfl, rfl, rfl, rfl, rfl, rfl, rfl⟩
  · intro h
    refine (dictGet_eq_none_iff _ _).2 ?_
    intro p hp
    obtain ⟨c, hc, rfl⟩ := List.mem_map.1 hp
    exact h c hc
  · intro h
    refine (dictGet_eq_none_iff _ _).2 ?_
    intro p hp
    obtain ⟨c, hc, rfl⟩ := List.mem_map.1 hp
    exact h c hc
  · intro h
    refine (dictGet_eq_none_iff _ _).2 ?_
    intro p hp
    obtain ⟨c, hc, rfl⟩ := List.mem_map.1 hp
    exact h c hc
  · intro h
    refine (dictGet_eq_none_iff _ _).2 ?_
    intro p hp
    obtain ⟨c, hc, rfl⟩ := List.mem_map.1 hp
    exact h c hc
  · intro h
    refine (dictGet_eq_none_iff _ _).2 ?_
    intro p hp
    obtain ⟨c, hc, rfl⟩ := List.mem_map.1 hp
    exact h c hc

/-- C5 witness: against empty dimension tables every natural key is absent, so
the concrete fact row gets null foreign keys while its measures are populated. -/
theorem fact_lookup_miss_yields_null_witness :
    (mkFactRow emptyDims sampleClean).customer_id = none ∧
    (mkFactRow emptyDims sampleClean).payment_id = none ∧
    (mkFactRow emptyDims sampleClean).invoice_id = sampleClean.invoice_id ∧
    (mkFactRow emptyDims sampleClean).sales = sampleClean.sales := by
  have h := fact_lookup_miss_yields_null emptyDims sampleClean
  exact ⟨h.1 (by decide), h.2.2.2.2.1 (by decide), h.2.2.2.2.2.1, h.2.2.2.2.2.2.2.2.1⟩

/-- C6: every time-dimension row derives quarter as `(month - 1) / 3 + 1`,
which for `month ≥ 1` equals `⌈month / 3⌉ = (month + 2) / 3` (so month 4 gives
quarter 2 and month 12 gives quarter 4); its weekday is the Python
`date.weekday()` value, whose convention is Monday = 0 (ordinal 1, January 1
of year 1, is a Monday with weekday 0 and the  weekday advances cyclically with
the ordinal); and is_weekend holds exactly for weekday 5 or 6. -/
theorem time_dimension_derived_attributes (d : Date) (t : Time) (i : Nat)
    (h : 1 ≤ d.month) :
    (mkTimeRow (i, d, t)).quarter = (d.month + 2) / 3 ∧
    (d.month = 4 → (mkTimeRow (i, d, t)).quarter = 2) ∧
    (d.month = 12 → (mkTimeRow (i, d, t)).quarter = 4) ∧
    (mkTimeRow (i, d, t)).weekday = pythonWeekday d ∧
    pythonWeekday ⟨1, 1, 1⟩ = 0 ∧
    (∀ d' : Date, toordinal d' = toordinal d + 1 →
        pythonWeekday d' = (pythonWeekday d + 1) % 7) ∧
    ((mkTimeRow (i, d, t)).is_weekend = true ↔
        (mkTimeRow (i, d, t)).weekday = 5 ∨ (mkTimeRow (i, d, t)).weekday = 6) := by
  refine ⟨?_, ?_, ?_, rfl, by decide, ?_, ?_⟩
  · show (d.month - 1) / 3 + 1 = (d.month + 2) / 3
    omega
  · intro hm
    show (d.month - 1) / 3 + 1 = 2
    omega
  · intro hm
    show (d.month - 1) / 3 + 1 = 4
    omega
  · intro d' hd'
    show (toordinal d' + 6) % 7 = ((toordinal d + 6) % 7 + 1) % 7
    rw [hd']
    omega
  · show decide (pythonWeekday d ≥ 5) = true ↔
        pythonWeekday d = 5 ∨ pythonWeekday d = 6
    rw [decide_eq_true_eq]
    unfold pythonWeekday
    omega

/-- C6 witness: 2019-04-13 (a Saturday) gives quarter 2, weekday 5 and a set
weekend flag; 2019-12-01 gives quarter 4. -/
theorem time_dimension_derived_attributes_witness :
    (mkTimeRow (0, ⟨2019, 4, 13⟩, ⟨10, 0, 0⟩)).quarter = 2 ∧
    (mkTimeRow (0, ⟨2019, 12, 1⟩, ⟨10, 0, 0⟩)).quarter = 4 ∧
    (mkTimeRow (0, ⟨2019, 4, 13⟩, ⟨10, 0, 0⟩)).weekday = 5 ∧
    (mkTimeRow (0, ⟨2019, 4, 13⟩, ⟨10, 0, 0⟩)).is_weekend = true :=
  ⟨(time_dimension_derived_attributes ⟨2019, 4, 13⟩ ⟨10, 0, 0⟩ 0 (by decide)).2.1 rfl,
   (time_dimension_derived_attributes ⟨2019, 12, 1⟩ ⟨10, 0, 0⟩ 0 (by decide)).2.2.1 rfl,
   by decide, by decide⟩

/-- C1 (amended): a raw input containing a record with an unparseable date
makes the whole transform fail with the propagated date parse error — the
record is not dropped row-scoped: no tables are produced, no other record is
transformed, and nothing is written. -/
theorem unparseable_date_aborts_transform (df : List RawRecord) (r : RawRecord)
    (hr : r ∈ df) (hd : r.date.isUnparseable = true) :
    transform_data df = .error (.parseError "Date") ∧
    outputOf (transform_data df) = none ∧
    writesOf (transform_data df) = [] := by
  have he := transform_data_eq_error (clean_data_error_date hr hd)
  refine ⟨he, ?_, ?_⟩
  · rw [he]
    rfl
  · rw [he]
    rfl

/-- C1 counterexample: on a concrete input holding one fully valid record and
one record with an unparseable date, the transform aborts with an error — the
valid record is not transformed and no outputs exist, contradicting the claim
that the bad record is merely dropped while the rest is still transformed. -/
theorem unparseable_date_not_row_scoped_cex :
    sampleRaw ∈ badDateDf ∧ noNullAfterCoercion sampleRaw = true ∧
    transform_data badDateDf = .error (.parseError "Date") ∧
    outputOf (transform_data badDateDf) = none := by
  refine ⟨by decide, by decide, rfl, rfl⟩

/-- C1 witness: the amended claim evaluated at the concrete bad-date input. -/
theorem unparseable_date_aborts_transform_witness :
    transform_data badDateDf = .error (.parseError "Date") ∧
    outputOf (transform_data badDateDf) = none ∧
    writesOf (transform_data badDateDf) = [] :=
  unparseable_date_aborts_transform badDateDf { sampleRaw2 with date := .unparseable }
    (by decide) rfl

/-- C7 (amended): for every raw input whose date and time fields all parse or
are missing (an unparseable date or time instead aborts the whole cleaning),
cleaning keeps a record if and only if no field is null after numeric coercion
— all-or-nothing per row — and kept records carry exactly the trimmed strings,
the coerced numerics and the parsed date/time of the raw record. -/
theorem clean_drop_iff_any_null_field (df : List RawRecord)
    (h : ∀ r ∈ df, r.date.isUnparseable = false ∧ r.time.isUnparseable = false) :
    clean_data df = .ok (df.filterMap cleanRow) ∧
    (∀ r : RawRecord, (cleanRow r).isSome = noNullAfterCoercion r) ∧
    (∀ (r : RawRecord) (c : CleanedRecord), cleanRow r = some c →
      r.invoice_id = some c.invoice_id ∧ r.branch.map strip = some c.branch ∧
      r.city.map strip = some c.city ∧
      r.customer_type.map strip = some c.customer_type ∧
      r.gender.map strip = some c.gender ∧
      r.product_line.map strip = some c.product_line ∧
      r.payment.map strip = some c.payment ∧
      to_numeric r.unit_price = some c.unit_price ∧
      to_numeric r.quantity = some c.quantity ∧
      to_numeric r.tax_5_percent = some c.tax_5_percent ∧
      to_numeric r.sales = some c.sales ∧ to_numeric r.cogs = some c.cogs ∧
      to_numeric r.gross_income = some c.gross_income ∧
      to_numeric r.rating = some c.rating ∧
      r.gross_margin_percentage = some c.gross_margin_percentage ∧
      r.date.parsed = some c.date ∧ r.time.parsed = some c.time) := by
  refine ⟨clean_data_ok_of_parses h, cleanRow_isSome_eq, ?_⟩
  intro r c hc
  obtain ⟨h1, h2, h3, h4, h5, h6, h7, h8, h9, h10, h11, h12, h13, h14, h15, h16, h17⟩ :=
    cleanRow_some_fields hc
  exact ⟨h3, h4, h5, h6, h7, h8, h9, h10, h11, h12, h13, h14, h15, h16, h17, h1, h2⟩

/-- C7 counterexample: a concrete raw input holding a record with no null
field next to a record with an unparseable time; cleaning fails outright, so
the no-null record is not kept, contradicting a drop-iff-null reading over
every raw input. -/
theorem clean_drop_iff_null_cex :
    sampleRaw ∈ badTimeDf ∧ noNullAfterCoercion sampleRaw = true ∧
    clean_data badTimeDf = .error (.parseError "Time") :=
  ⟨by decide, by decide, rfl⟩

/-- C7 witness: the amended claim evaluated on a concrete parseable input. -/
theorem clean_drop_iff_any_null_field_witness :
    clean_data oneRowDf = .ok (oneRowDf.filterMap cleanRow) ∧
    (cleanRow sampleRaw).isSome = noNullAfterCoercion sampleRaw :=
  ⟨(clean_drop_iff_any_null_field oneRowDf (by decide)).1,
   (clean_drop_iff_any_null_field oneRowDf (by decide)).2.1 sampleRaw⟩

/-- C8: the transform is deterministic — its result does not depend on the
transformer instance state, so a rerun on the identical input (even from the
state left behind by the first run) returns the identical dimension tables,
fact rows and writes. -/
theorem transform_rerun_identical (df : List RawRecord) (out : TransformOutput)
    (s' : TransformerState) (w : List FileWrite)
    (h : transform_data df = .ok (out, s', w)) :
    DataTransformer.transform_data s' df = .ok (out, s', w) ∧
    ∀ s₁ s₂ : TransformerState,
      DataTransformer.transform_data s₁ df = DataTransformer.transform_data s₂ df :=
  ⟨h, fun _ _ => rfl⟩

/-- C8 witness: rerunning the transform of a concrete two-record input from
its own final state reproduces the identical result. -/
theorem transform_rerun_identical_witness :
    DataTransformer.transform_data twoRowState twoRowDf
      = .ok (twoRowOut, twoRowState, twoRowWrites) :=
  (transform_rerun_identical twoRowDf twoRowOut twoRowState twoRowWrites rfl).1

/-- C9 (amended): the transform's result is independent of prior instance
state, but a successful transform is not write-free: it persists the processed
tables, writing the five dimension CSVs and the fact_sales CSV. -/
theorem transform_state_independent_writes (s' : TransformerState)
    (df : List RawRecord) (cleaned : List CleanedRecord)
    (h : clean_data df = .ok cleaned) :
    DataTransformer.transform_data s' df = transform_data df ∧
    writesOf (transform_data df) =
      [FileWrite.customerCsv (create_dimensions cleaned).customer,
       FileWrite.productCsv (create_dimensions cleaned).product,
       FileWrite.timeCsv (create_dimensions cleaned).time,
       FileWrite.branchCsv (create_dimensions cleaned).branch,
       FileWrite.paymentCsv (create_dimensions cleaned).payment,
       FileWrite.factCsv (create_fact_table (create_dimensions cleaned) cleaned)] := by
  refine ⟨rfl, ?_⟩
  rw [transform_data_eq_ok h]
  rfl

/-- C9 counterexample: on a concrete one-record input the transform performs a
non-empty list of file writes, contradicting the claim that it performs no
writes and persists nothing beyond the returned tables. -/
theorem transform_writes_nonempty_cex :
    writesOf (transform_data oneRowDf) ≠ [] := by
  decide

/-- C9 witness: the amended claim evaluated at a concrete input. -/
theorem transform_state_independent_writes_witness :
    writesOf (transform_data oneRowDf) =
      [FileWrite.customerCsv (create_dimensions (oneRowDf.filterMap cleanRow)).customer,
       FileWrite.productCsv (create_dimensions (oneRowDf.filterMap cleanRow)).product,
       FileWrite.timeCsv (create_dimensions (oneRowDf.filterMap cleanRow)).time,
       FileWrite.branchCsv (create_dimensions (oneRowDf.filterMap cleanRow)).branch,
       FileWrite.paymentCsv (create_dimensions (oneRowDf.filterMap cleanRow)).payment,
       FileWrite.factCsv (create_fact_table
         (create_dimensions (oneRowDf.filterMap cleanRow))
         (oneRowDf.filterMap cleanRow))] :=
  (transform_state_independent_writes ⟨none, none⟩ oneRowDf
    (oneRowDf.filterMap cleanRow) rfl).2

/-- C10: the gross margin percentage field is never coerced during cleaning —
a kept record carries it verbatim, a missing (null) value drops the row via
dropna, a non-null non-numeric string value survives cleaning whenever the
other fields are non-null, and the fact builder copies the value verbatim into
the fact row. -/
theorem gross_margin_percentage_uncoerced_verbatim (r : RawRecord)
    (c : CleanedRecord) (dims : Dimensions) (s : String) :
    (cleanRow r = some c →
      r.gross_margin_percentage = some c.gross_margin_percentage) ∧
    (r.gross_margin_percentage = none → cleanRow r = none) ∧
    (mkFactRow dims c).gross_margin_percentage = c.gross_margin_percentage ∧
    (otherFieldsNonNull r = true → r.gross_margin_percentage = some (Cell.str s) →
      ∃ c', cleanRow r = some c' ∧ c'.gross_margin_percentage = Cell.str s ∧
        (mkFactRow dims c').gross_margin_percentage = Cell.str s) := by
  refine ⟨?_, ?_, rfl, ?_⟩
  · intro hc
    obtain ⟨-, -, -, -, -, -, -, -, -, -, -, -, -, -, -, -, hgmp⟩ :=
      cleanRow_some_fields hc
    exact hgmp
  · intro hnone
    have h := cleanRow_isSome_eq r
    unfold noNullAfterCoercion at h
    rw [hnone] at h
    simp only [Option.isSome_none, Bool.and_false] at h
    cases hcr : cleanRow r
    · rfl
    · rw [hcr] at h
      simp at h
  · intro hother hgmp
    have h := cleanRow_isSome_eq r
    unfold noNullAfterCoercion at h
    rw [hother, hgmp] at h
    simp only [Option.isSome_some, Bool.and_true] at h
    obtain ⟨c', hc'⟩ := Option.isSome_iff_exists.1 (by rw [h])
    obtain ⟨-, -, -, -, -, -, -, -, -, -, -, -, -, -, -, -, hg⟩ :=
      cleanRow_some_fields hc'
    rw [hgmp] at hg
    have hcs : c'.gross_margin_percentage = Cell.str s := (Option.some.inj hg).symm
    exact ⟨c', hc', hcs, by rw [show (mkFactRow dims c').gross_margin_percentage
      = c'.gross_margin_percentage from rfl, hcs]⟩

/-- C10 witness: a concrete record whose gross margin percentage is the
non-numeric string "4.7619%" survives cleaning and the value reaches the fact
row verbatim. -/
theorem gross_margin_percentage_uncoerced_verbatim_witness :
    ∃ c', cleanRow strGmpRaw = some c' ∧
      c'.gross_margin_percentage = Cell.str "4.7619%" ∧
      (mkFactRow emptyDims c').gross_margin_percentage = Cell.str "4.7619%" :=
  (gross_margin_percentage_uncoerced_verbatim strGmpRaw sampleClean emptyDims
    "4.7619%").2.2.2 (by decide) rfl
